import Mathlib

/-!
Verification development for the FaceRec repository.

Shallow embeddings of:
* `LGtest.py` — the LangGraph movie-concept workflow (state record, the
  eight graph nodes, the linear edges, the feedback router, and the
  interrupt-before-`handle_user_feedback` execution semantics).  The LLM
  is abstracted as an `Oracle` of pure functions, one per distinct call
  shape actually made by the source; LangGraph's channel-merge semantics
  (fields without a reducer are overwritten, `user_feedback` carries the
  `operator.add` reducer and is concatenated) is `applyUpdate`.
* `FaceRecog.py` — `SelfieAuth`, with the external `face_recognition`
  library abstracted as a record of fallible collaborators (`Except`),
  and the source's `try/except` block embedded as a caught sub-computation.
* `FRT2.py` / `FRT3.py` — the thumbnail scripts' computed resize targets,
  destination-bucket lookup, and `os.path.split`/`os.path.join`-based
  output-name computation.
-/

namespace FaceRec

/-! ### Python string primitives used by the sources -/

/-- `leadsWith pat s` is Python's `s.startswith(pat)` on char lists. -/
def leadsWith : List Char → List Char → Bool
  | [], _ => true
  | _ :: _, [] => false
  | p :: ps, c :: cs => (p == c) && leadsWith ps cs

/-- `containsSub pat s` is Python's `pat in s` (substring containment). -/
def containsSub (pat s : List Char) : Bool :=
  s.tails.any (fun t => leadsWith pat t)

/-- Python's `str.lower()` (ASCII case folding, as used by the source). -/
def pyLower (s : List Char) : List Char :=
  s.map Char.toLower

/-! ### LGtest.py — data model

The pydantic models `Plot`, `Character`, `Theme`, `Screenplay`,
`MarketAnalysis` and the `MovieState` record, field for field. -/

structure Character where
  name : String
  role : String
  background : String
  arc : String
  personality : String
deriving DecidableEq

structure Plot where
  premise : String
  synopsis : String
  setting : String
  turning_points : List String
  resolution : String
deriving DecidableEq

structure Theme where
  main_theme : String
  moral : String
  subthemes : List String
deriving DecidableEq

structure Screenplay where
  acts : List String
  key_scenes : List String
  dialogue : List String
deriving DecidableEq

structure MarketAnalysis where
  target_audience : List String
  genre_positioning : String
  unique_selling_points : List String
  comparisons : List String
deriving DecidableEq

/-- `MovieState(MessagesState)`: the shared state record.  `messages` is the
inherited message history, carried along but never consumed by the nodes. -/
structure MovieState where
  messages : List String
  concept : String
  plot : Option Plot
  characters : List Character
  theme : Option Theme
  screenplay : Option Screenplay
  market_analysis : Option MarketAnalysis
  director_notes : List String
  critic_feedback : List String
  user_feedback : List String
deriving DecidableEq

/-- A node's partial state update (the dict a node function returns):
only the keys present in the dict are `some`. -/
structure StateUpdate where
  messages : Option (List String) := none
  plot : Option Plot := none
  characters : Option (List Character) := none
  theme : Option Theme := none
  screenplay : Option Screenplay := none
  market_analysis : Option MarketAnalysis := none
  director_notes : Option (List String) := none
  critic_feedback : Option (List String) := none
  user_feedback : Option (List String) := none
deriving DecidableEq

/-- LangGraph channel merge for `MovieState`: every field is a last-value
channel (an update overwrites), except `user_feedback`, declared
`Annotated[list, operator.add]` in the source, whose updates are
concatenated onto the existing list. -/
def applyUpdate (st : MovieState) (u : StateUpdate) : MovieState where
  messages := u.messages.getD st.messages
  concept := st.concept
  plot := match u.plot with | some p => some p | none => st.plot
  characters := u.characters.getD st.characters
  theme := match u.theme with | some t => some t | none => st.theme
  screenplay := match u.screenplay with | some s => some s | none => st.screenplay
  market_analysis :=
    match u.market_analysis with | some m => some m | none => st.market_analysis
  director_notes := u.director_notes.getD st.director_notes
  critic_feedback := u.critic_feedback.getD st.critic_feedback
  user_feedback := st.user_feedback ++ u.user_feedback.getD []

/-- The LLM (`ChatOpenAI` plus `with_structured_output`), abstracted as a
record of pure functions — one per distinct call the source makes, taking
exactly the pieces of state the corresponding node interpolates into its
prompt. -/
structure Oracle where
  genPlot : String → Plot
  genCharacters : String → List Character
  genTheme : String → List Character → Theme
  genScreenplay : Plot → List Character → Theme → Screenplay
  genDirectorNote : Screenplay → String
  genCriticNote : Plot → Theme → Screenplay → String
  genMarket : String → String → List String → MarketAnalysis

/-! ### LGtest.py — node functions

Each node reads the fields the Python function accesses and returns the
dict it returns.  Accessing a field of a `None` optional (an
`AttributeError` in Python) is `none`. -/

/-- `develop_plot`: reads `state['concept']`, returns `{"plot": plot}`. -/
def develop_plot (o : Oracle) (st : MovieState) : Option StateUpdate :=
  some { plot := some (o.genPlot st.concept) }

/-- `create_characters`: reads `state['plot'].synopsis`,
returns `{"characters": characters}`. -/
def create_characters (o : Oracle) (st : MovieState) : Option StateUpdate :=
  match st.plot with
  | none => none
  | some p => some { characters := some (o.genCharacters p.synopsis) }

/-- `develop_theme`: reads `state['plot'].synopsis` and `state['characters']`,
returns `{"theme": theme}`. -/
def develop_theme (o : Oracle) (st : MovieState) : Option StateUpdate :=
  match st.plot with
  | none => none
  | some p => some { theme := some (o.genTheme p.synopsis st.characters) }

/-- `write_screenplay`: reads `state['plot']`, `state['characters']`,
`state['theme']`, returns `{"screenplay": screenplay}`. -/
def write_screenplay (o : Oracle) (st : MovieState) : Option StateUpdate :=
  match st.plot, st.theme with
  | some p, some t =>
    some { screenplay := some (o.genScreenplay p st.characters t) }
  | _, _ => none

/-- `director_review`: reads `state['screenplay']`, returns
`{"director_notes": [response.content]}` — a fresh one-element list. -/
def director_review (o : Oracle) (st : MovieState) : Option StateUpdate :=
  match st.screenplay with
  | none => none
  | some sp => some { director_notes := some [o.genDirectorNote sp] }

/-- `critic_review`: reads `state['plot']`, `state['theme']`,
`state['screenplay']`, returns `{"critic_feedback": [response.content]}`. -/
def critic_review (o : Oracle) (st : MovieState) : Option StateUpdate :=
  match st.plot, st.theme, st.screenplay with
  | some p, some t, some sp =>
    some { critic_feedback := some [o.genCriticNote p t sp] }
  | _, _, _ => none

/-- `market_analysis`: reads `state['plot'].synopsis`,
`state['theme'].main_theme`, `state['critic_feedback']`, returns
`{"market_analysis": analysis}`. -/
def market_analysis (o : Oracle) (st : MovieState) : Option StateUpdate :=
  match st.plot, st.theme with
  | some p, some t =>
    some { market_analysis :=
             some (o.genMarket p.synopsis t.main_theme st.critic_feedback) }
  | _, _ => none

/-- `handle_user_feedback`: the interrupt node; a Python `pass`, i.e. it
returns `None`, which LangGraph treats as no state update. -/
def handle_user_feedback (_o : Oracle) (_st : MovieState) : Option StateUpdate :=
  some {}

/-! ### LGtest.py — graph construction and execution semantics -/

/-- A named graph node, as added by `workflow.add_node(name, fn)`. -/
structure Node where
  name : String
  run : Oracle → MovieState → Option StateUpdate

/-- The linear chain of edges
`START → develop_plot → create_characters → develop_theme →
write_screenplay → director_review → critic_review → market_analysis`,
in order.  `handle_user_feedback` follows it but the compiled graph
interrupts before that node, so it is not part of the chain that runs. -/
def linearNodes : List Node :=
  [⟨"develop_plot", develop_plot⟩,
   ⟨"create_characters", create_characters⟩,
   ⟨"develop_theme", develop_theme⟩,
   ⟨"write_screenplay", write_screenplay⟩,
   ⟨"director_review", director_review⟩,
   ⟨"critic_review", critic_review⟩,
   ⟨"market_analysis", market_analysis⟩]

/-- Run the given nodes in order from the given state, merging each node's
update with `applyUpdate`; returns the final state paired with the trace
of executed node names, or `none` if a node raises. -/
def runNodes (o : Oracle) : List Node → MovieState → Option (MovieState × List String)
  | [], st => some (st, [])
  | n :: ns, st =>
    match n.run o st with
    | none => none
    | some u =>
      match runNodes o ns (applyUpdate st u) with
      | none => none
      | some (st', tr) => some (st', n.name :: tr)

/-- The router's possible results: the four restart targets and `END`. -/
inductive Route where
  | developPlot
  | createCharacters
  | developTheme
  | writeScreenplay
  | endRun
deriving DecidableEq

/-- `route_feedback`: reads `state.get('user_feedback', [])`; if empty
returns `END`; otherwise lowercases the last entry and tests the four
keyword substrings in the source's `if/elif` order. -/
def route_feedback (st : MovieState) : Route :=
  match st.user_feedback.getLast? with
  | none => Route.endRun
  | some fb =>
    let latest := pyLower fb.data
    if containsSub "plot".data latest then Route.developPlot
    else if containsSub "character".data latest then Route.createCharacters
    else if containsSub "theme".data latest then Route.developTheme
    else if containsSub "screenplay".data latest then Route.writeScreenplay
    else Route.endRun

/-- Index of a route's target node in `linearNodes` (the conditional-edge
mapping of `add_conditional_edges`); `endRun` has no target. -/
def Route.entry : Route → Option Nat
  | Route.developPlot => some 0
  | Route.createCharacters => some 1
  | Route.developTheme => some 2
  | Route.writeScreenplay => some 3
  | Route.endRun => none

/-- `graph.invoke(initial_state)`: with `interrupt_before=['handle_user_feedback']`
the compiled graph runs the linear chain through `market_analysis` and
pauses before `handle_user_feedback`, returning the state (and, in this
embedding, the trace of executed node names). -/
def invokeGraph (o : Oracle) (st : MovieState) : Option (MovieState × List String) :=
  runNodes o linearNodes st

/-- Outcome of resuming at the interrupt: either the graph ran back around
to the interrupt and paused again, or the router chose `END`. -/
inductive Resumed where
  | paused (st : MovieState)
  | ended (st : MovieState)
deriving DecidableEq

/-- The state carried by a `Resumed` outcome. -/
def Resumed.state : Resumed → MovieState
  | Resumed.paused st => st
  | Resumed.ended st => st

/-- Resume the interrupted graph after the caller injects one new
`user_feedback` entry: the entry is merged through the `operator.add`
channel (appended), the no-op `handle_user_feedback` node runs, and the
conditional edge `route_feedback` either ends the run or re-enters the
chain at its target, running to the next interrupt. -/
def resumeGraph (o : Oracle) (fb : String) (st : MovieState) : Option Resumed :=
  let st1 := applyUpdate st { user_feedback := some [fb] }
  match (route_feedback st1).entry with
  | none => some (Resumed.ended st1)
  | some k =>
    match runNodes o (linearNodes.drop k) st1 with
    | none => none
    | some (st2, _) => some (Resumed.paused st2)

/-- Perform a sequence of resume cycles, one injected feedback string per
cycle; a run "with N resumes" requires the graph to still be paused when
another feedback string remains to be injected. -/
def resumeAll (o : Oracle) : List String → MovieState → Option MovieState
  | [], st => some st
  | fb :: rest, st =>
    match resumeGraph o fb st with
    | none => none
    | some (Resumed.paused st') => resumeAll o rest st'
    | some (Resumed.ended st') => if rest.isEmpty then some st' else none

/-- The initial state of a run: only `concept` is supplied; every other
field takes its declared default. -/
def initState (c : String) : MovieState where
  messages := []
  concept := c
  plot := none
  characters := []
  theme := none
  screenplay := none
  market_analysis := none
  director_notes := []
  critic_feedback := []
  user_feedback := []

/-- A full run: invoke from the initial concept, then perform the given
resume cycles. -/
def runWithFeedback (o : Oracle) (c : String) (fbs : List String) :
    Option MovieState :=
  match invokeGraph o (initState c) with
  | none => none
  | some (st, _) => resumeAll o fbs st

/-- A concrete oracle used to evaluate the embedding on closed inputs. -/
def trivOracle : Oracle where
  genPlot c := ⟨"premise of " ++ c, "synopsis of " ++ c, "setting", ["turn"], "resolution"⟩
  genCharacters syn := [⟨"hero of " ++ syn, "protagonist", "bg", "arc", "bold"⟩]
  genTheme syn _chars := ⟨"theme of " ++ syn, "moral", ["sub"]⟩
  genScreenplay p _chars _t := ⟨["act on " ++ p.premise], ["scene"], ["line"]⟩
  genDirectorNote sp := "note on " ++ (sp.acts.headD "")
  genCriticNote p _t _sp := "critique of " ++ p.premise
  genMarket syn mt _cf := ⟨["adults"], syn ++ " / " ++ mt, ["fresh"], ["comp"]⟩

/-- The concrete state at the interrupt after a first pass over
`trivOracle` with concept "demo"; used to evaluate claims on closed
inputs. -/
def demoPaused : MovieState :=
  ((invokeGraph trivOracle (initState "demo")).map Prod.fst).getD (initState "demo")

/-! ### FaceRecog.py — SelfieAuth

The `face_recognition` library is abstracted as a record of fallible
collaborators over abstract image/encoding/comparison-result types; a
raised Python exception is an `Except.error`.  `ShowPic` is a display
side effect with no bearing on the returned value and is not modelled. -/

/-- A Python exception: the `IndexError` raised by `[0]` on an empty
encodings list, or an exception raised inside a library call. -/
inductive PyErr (E : Type) where
  | indexError
  | libError (e : E)
deriving DecidableEq

/-- What `SelfieAuth` returns on the non-raising paths: the literal
`False` from the `except` branch, or the comparator's result from the
final `return result`. -/
inductive SelfieResult (C : Type) where
  | boolResult (b : Bool)
  | cmpResult (c : C)
deriving DecidableEq

/-- The `face_recognition` collaborators used by `SelfieAuth`. -/
structure FaceLib (Img Enc E C : Type) where
  load_image_file : String → Except E Img
  face_encodings : Img → Except E (List Enc)
  compare_faces : List Enc → Enc → Except E C

/-- The source's `try` block: `fr.face_encodings(img1)[0]` then
`fr.face_encodings(img2)[0]`; `[0]` on an empty list raises `IndexError`,
and any library error also escapes this computation. -/
def tryEncodings {Img Enc E C : Type} (lib : FaceLib Img Enc E C)
    (img1 img2 : Img) : Except (PyErr E) (Enc × Enc) :=
  match lib.face_encodings img1 with
  | Except.error e => Except.error (PyErr.libError e)
  | Except.ok [] => Except.error PyErr.indexError
  | Except.ok (user_encoding :: _) =>
    match lib.face_encodings img2 with
    | Except.error e => Except.error (PyErr.libError e)
    | Except.ok [] => Except.error PyErr.indexError
    | Except.ok (selfie_encoding :: _) =>
      Except.ok (user_encoding, selfie_encoding)

/-- `SelfieAuth(auth_image, new_image)`: load both images (exceptions
propagate), extract one encoding per image inside `try/except Exception`
(any exception there becomes `return False`), then
`fr.compare_faces([user_encoding], selfie_encoding)` (exceptions
propagate) and return its result. -/
def SelfieAuth {Img Enc E C : Type} (lib : FaceLib Img Enc E C)
    (auth_image new_image : String) : Except (PyErr E) (SelfieResult C) :=
  match lib.load_image_file auth_image with
  | Except.error e => Except.error (PyErr.libError e)
  | Except.ok user_given_image =>
    match lib.load_image_file new_image with
    | Except.error e => Except.error (PyErr.libError e)
    | Except.ok user_selfie_image =>
      match tryEncodings lib user_given_image user_selfie_image with
      | Except.error _ => Except.ok (SelfieResult.boolResult false)
      | Except.ok (user_encoding, selfie_encoding) =>
        match lib.compare_faces [user_encoding] selfie_encoding with
        | Except.error e => Except.error (PyErr.libError e)
        | Except.ok result => Except.ok (SelfieResult.cmpResult result)

/-- A concrete face library over `Nat` images/encodings used to evaluate
`SelfieAuth` on closed inputs: an image is its path's length, an image
`0` contains no face, any other image `i` has the single encoding `i`,
and the comparator always answers `true`. -/
def libTwoFaces : FaceLib Nat Nat String Bool where
  load_image_file s := Except.ok s.length
  face_encodings i := Except.ok (if i = 0 then [] else [i])
  compare_faces _ _ := Except.ok true

/-- A concrete face library whose encoding extraction always raises. -/
def libEncRaises : FaceLib Nat Nat String Bool where
  load_image_file s := Except.ok s.length
  face_encodings _ := Except.error "boom"
  compare_faces _ _ := Except.ok true

/-! ### FRT2.py / FRT3.py — thumbnail scripts -/

/-- A Cloud Storage trigger payload: the `bucket` and `name` keys read by
both functions. -/
structure StorageEvent where
  bucket : String
  name : String
deriving DecidableEq

/-- FRT2's target width/height for one axis:
`int(image.shape[i] * scale_percent / 100)` with `scale_percent = 50` —
exact real arithmetic truncated by `int(...)` (truncation = floor on
nonnegative values). -/
def reformat_dim (n : ℕ) : ℕ :=
  Nat.floor ((n * 50 : ℚ) / 100)

/-- FRT3's target for one axis: `int(width/2)` / `int(height/2)`. -/
def resize_dim (n : ℕ) : ℕ :=
  Nat.floor ((n : ℚ) / 2)

/-- `os.environ.get(key, default)`. -/
def environGet (env : String → Option String) (key default_ : String) : String :=
  (env key).getD default_

/-- FRT2: `os.environ.get('PROCESSED_BUCKET_NAME', 'Specified environment
variable is not set.')` — the destination-bucket name handed to
`client.get_bucket`. -/
def dest_bucket_name (env : String → Option String) : String :=
  environGet env "PROCESSED_BUCKET_NAME" "Specified environment variable is not set."

/-- The storage interactions `reformat_image` performs, given the decoded
source image's width and height. -/
structure ReformatTrace where
  sourceBucket : String
  sourceBlob : String
  targetWidth : ℕ
  targetHeight : ℕ
  destBucket : String
  destBlobName : String
deriving DecidableEq

/-- `reformat_image(event, context)`: downloads `event['name']` from
`event['bucket']`, resizes to 50% via `int(shape * 50 / 100)`, and uploads
under the same blob name to the bucket named by `dest_bucket_name`. -/
def reformat_image (env : String → Option String) (ev : StorageEvent)
    (w h : ℕ) : ReformatTrace where
  sourceBucket := ev.bucket
  sourceBlob := ev.name
  targetWidth := reformat_dim w
  targetHeight := reformat_dim h
  destBucket := dest_bucket_name env
  destBlobName := ev.name

/-- `posixpath.split(p)`: `tail` is everything after the last `'/'`;
`head` is the rest, stripped of trailing slashes unless it consists
entirely of slashes. -/
def splitPath (p : List Char) : List Char × List Char :=
  let revTail := p.reverse.takeWhile (fun c => !(c == '/'))
  let revHead := p.reverse.dropWhile (fun c => !(c == '/'))
  let head :=
    if revHead.all (fun c => c == '/') then revHead.reverse
    else (revHead.dropWhile (fun c => c == '/')).reverse
  (head, revTail.reverse)

/-- `posixpath.join(a, b)` for the two-argument calls the source makes:
`b` if `b` is absolute, else `a ++ b` when `a` is empty or ends in a
slash, else `a ++ "/" ++ b`. -/
def joinPath (a b : List Char) : List Char :=
  if b.head? = some '/' then b
  else if a = [] ∨ a.getLast? = some '/' then a ++ b
  else a ++ '/' :: b

/-- `NEW_FILE_PREFIX="thumbnail_"`. -/
def newFileStart : List Char :=
  "thumbnail_".data

/-- The output object name computed by FRT3's `upload`:
`_dir, _name = os.path.split(blob_name)`;
`new_file_name = os.path.join(_dir, NEW_FILE_PREFIX + _name)`. -/
def uploadName (blob_name : String) : String :=
  let parts := splitPath blob_name.data
  String.mk (joinPath parts.1 (newFileStart ++ parts.2))

/-- What FRT3's `main` does with an event: skip (early return), or
download+resize the source blob and upload the result as `upName`. -/
inductive MainAct where
  | skip
  | process (srcBucket srcName upName : String)
deriving DecidableEq

/-- FRT3 `main(event, context)`: early-return when the basename of
`event['name']` starts with `thumbnail_`; otherwise download, resize and
upload to the name `upload` computes in the same bucket. -/
def fmain (ev : StorageEvent) : MainAct :=
  let parts := splitPath ev.name.data
  if leadsWith newFileStart parts.2 then MainAct.skip
  else MainAct.process ev.bucket ev.name (uploadName ev.name)

/-! ### Theorems -/

/-- C1: the feedback router inspects only the last entry of
`user_feedback`, lowercased: empty list terminates; otherwise the
keywords "plot", "character", "theme", "screenplay" are tested in that
fixed priority order, the first hit choosing the restart target, and no
hit terminates. -/
theorem C1_router_last_entry_priority (st : MovieState) :
    (st.user_feedback = [] → route_feedback st = Route.endRun) ∧
    (∀ pre fb, st.user_feedback = pre ++ [fb] →
      (containsSub "plot".data (pyLower fb.data) = true →
          route_feedback st = Route.developPlot) ∧
      (containsSub "plot".data (pyLower fb.data) = false →
        containsSub "character".data (pyLower fb.data) = true →
          route_feedback st = Route.createCharacters) ∧
      (containsSub "plot".data (pyLower fb.data) = false →
        containsSub "character".data (pyLower fb.data) = false →
        containsSub "theme".data (pyLower fb.data) = true →
          route_feedback st = Route.developTheme) ∧
      (containsSub "plot".data (pyLower fb.data) = false →
        containsSub "character".data (pyLower fb.data) = false →
        containsSub "theme".data (pyLower fb.data) = false →
        containsSub "screenplay".data (pyLower fb.data) = true →
          route_feedback st = Route.writeScreenplay) ∧
      (containsSub "plot".data (pyLower fb.data) = false →
        containsSub "character".data (pyLower fb.data) = false →
        containsSub "theme".data (pyLower fb.data) = false →
        containsSub "screenplay".data (pyLower fb.data) = false →
          route_feedback st = Route.endRun)) ∧
    (∀ t : MovieState, st.user_feedback.getLast? = t.user_feedback.getLast? →
      route_feedback st = route_feedback t) := by
  refine ⟨?_, ?_, ?_⟩
  · intro h
    simp [route_feedback, h]
  · intro pre fb h
    have hlast : st.user_feedback.getLast? = some fb := by
      rw [h]; exact List.getLast?_concat _
    refine ⟨?_, ?_, ?_, ?_, ?_⟩ <;>
      · intros
        simp_all [route_feedback, hlast]
  · intro t h
    rw [route_feedback, route_feedback, h]

/-- Witness for C1: a state whose last feedback entry mentions both
"PLOT" (uppercased) and "theme" routes to `develop_plot`. -/
theorem C1_router_last_entry_priority_witness :
    route_feedback { initState "c" with
        user_feedback := ["Rework the PLOT and theme"] } = Route.developPlot :=
  ((C1_router_last_entry_priority _).2.1 []
    "Rework the PLOT and theme" rfl).1 (by decide)

/-- C2: from an initial state holding only a concept, invoking the engine
runs the seven steps `develop_plot` … `market_analysis` exactly once
each, in order, pauses before `handle_user_feedback`, and the returned
state has `plot`, `characters`, `theme`, `screenplay`, `market_analysis`
populated and exactly one entry each in `director_notes` and
`critic_feedback`. -/
theorem C2_single_pass (o : Oracle) (c : String) :
    ∃ st, invokeGraph o (initState c) =
        some (st,
          ["develop_plot", "create_characters", "develop_theme",
           "write_screenplay", "director_review", "critic_review",
           "market_analysis"]) ∧
      st.plot = some (o.genPlot c) ∧
      st.characters = o.genCharacters (o.genPlot c).synopsis ∧
      st.theme.isSome = true ∧
      st.screenplay.isSome = true ∧
      st.market_analysis.isSome = true ∧
      st.director_notes.length = 1 ∧
      st.critic_feedback.length = 1 ∧
      st.user_feedback = [] := by
  exact ⟨_, rfl, rfl, rfl, rfl, rfl, rfl, rfl, rfl, rfl⟩

/-- C7: both thumbnail scripts compute the 50% target of an axis of
length `n` as `n / 2` rounded toward zero (floor on naturals) — e.g. an
odd axis truncates, it does not round up. -/
theorem C7_half_dims_floor (n : ℕ) :
    reformat_dim n = n / 2 ∧ resize_dim n = n / 2 := by
  constructor
  · unfold reformat_dim
    have h : ((n : ℚ) * 50) / 100 = ((n * 50 : ℕ) : ℚ) / ((100 : ℕ) : ℚ) := by
      push_cast; ring
    rw [show ((n : ℚ) * 50 : ℚ) = ((n : ℚ) * 50) from rfl, h,
      Nat.floor_div_nat, Nat.floor_natCast]
    omega
  · unfold resize_dim
    rw [show ((2 : ℚ)) = ((2 : ℕ) : ℚ) by norm_num, Nat.floor_div_nat,
      Nat.floor_natCast]

/-- C9: with `PROCESSED_BUCKET_NAME` unset, `reformat_image` does not
fail; it uses the literal placeholder string as the destination bucket
name (and uses the configured value when the variable is set). -/
theorem C9_missing_env_placeholder (env : String → Option String)
    (ev : StorageEvent) (w h : ℕ) :
    (env "PROCESSED_BUCKET_NAME" = none →
      (reformat_image env ev w h).destBucket =
        "Specified environment variable is not set.") ∧
    (∀ v, env "PROCESSED_BUCKET_NAME" = some v →
      (reformat_image env ev w h).destBucket = v) := by
  constructor
  · intro hnone
    simp [reformat_image, dest_bucket_name, environGet, hnone]
  · intro v hv
    simp [reformat_image, dest_bucket_name, environGet, hv]

/-- Witness for C9: the all-unset environment yields the placeholder. -/
theorem C9_missing_env_placeholder_witness :
    (reformat_image (fun _ => none) ⟨"b", "pic.png"⟩ 10 10).destBucket =
      "Specified environment variable is not set." :=
  (C9_missing_env_placeholder (fun _ => none) ⟨"b", "pic.png"⟩ 10 10).1 rfl

/-- Helper: no node of the linear chain puts a `user_feedback` key in its
returned update dict. -/
theorem linearNodes_no_feedback_write :
    ∀ n ∈ linearNodes, ∀ (o : Oracle) (s : MovieState) (u : StateUpdate),
      n.run o s = some u → u.user_feedback = none := by
  intro n hn o s u h
  fin_cases hn <;>
    simp only [linearNodes, develop_plot, create_characters, develop_theme,
      write_screenplay, director_review, critic_review, market_analysis] at h <;>
    (try split at h) <;>
    first
      | (obtain rfl := (Option.some.injEq _ _).mp h; rfl)
      | exact absurd h (fun hc => Option.noConfusion hc)

/-- Helper: running nodes that never write `user_feedback` leaves the
`user_feedback` channel exactly as it was. -/
theorem runNodes_feedback_eq (o : Oracle) :
    ∀ (ns : List Node),
      (∀ n ∈ ns, ∀ (s : MovieState) (u : StateUpdate),
        n.run o s = some u → u.user_feedback = none) →
      ∀ (st st' : MovieState) (tr : List String),
        runNodes o ns st = some (st', tr) →
        st'.user_feedback = st.user_feedback := by
  intro ns
  induction ns with
  | nil =>
    intro _ st st' tr h
    rw [runNodes] at h
    simp only [Option.some.injEq, Prod.mk.injEq] at h
    obtain ⟨rfl, -⟩ := h
    rfl
  | cons n ns ih =>
    intro hn st st' tr h
    rw [runNodes] at h
    split at h
    · exact absurd h (fun hc => Option.noConfusion hc)
    · rename_i u hrun
      split at h
      · exact absurd h (fun hc => Option.noConfusion hc)
      · rename_i pr st2 tr2 hrec
        simp only [Option.some.injEq, Prod.mk.injEq] at h
        obtain ⟨rfl, -⟩ := h
        have h1 := ih (fun m hm => hn m (List.mem_cons_of_mem _ hm))
          (applyUpdate st u) st2 tr2 hrec
        have h2 : u.user_feedback = none :=
          hn n (List.mem_cons_self _ _) st u hrun
        rw [h1]
        show st.user_feedback ++ u.user_feedback.getD [] = st.user_feedback
        rw [h2]
        exact List.append_nil _

/-- Helper: one resume cycle appends exactly the injected feedback entry
to `user_feedback`, whatever path the router takes. -/
theorem resumeGraph_feedback (o : Oracle) (fb : String) (st : MovieState)
    (r : Resumed) (h : resumeGraph o fb st = some r) :
    r.state.user_feedback = st.user_feedback ++ [fb] := by
  rw [resumeGraph] at h
  cases hroute :
      (route_feedback (applyUpdate st { user_feedback := some [fb] })).entry with
  | none =>
    rw [hroute] at h
    obtain rfl := (Option.some.injEq _ _).mp h
    rfl
  | some k =>
    rw [hroute] at h
    simp only [] at h
    cases hrun : runNodes o (linearNodes.drop k)
        (applyUpdate st { user_feedback := some [fb] }) with
    | none => rw [hrun] at h; exact absurd h (fun hc => Option.noConfusion hc)
    | some pr =>
      obtain ⟨st2, tr2⟩ := pr
      rw [hrun] at h
      simp only [Option.some.injEq] at h
      obtain rfl := h
      have := runNodes_feedback_eq o (linearNodes.drop k)
        (fun m hm s u => linearNodes_no_feedback_write m (List.drop_subset _ _ hm) o s u)
        _ st2 tr2 hrun
      rw [Resumed.state, this]
      rfl

/-- Helper: a sequence of resume cycles appends exactly the injected
entries, in order. -/
theorem resumeAll_feedback (o : Oracle) :
    ∀ (fbs : List String) (st st' : MovieState),
      resumeAll o fbs st = some st' →
      st'.user_feedback = st.user_feedback ++ fbs := by
  intro fbs
  induction fbs with
  | nil =>
    intro st st' h
    rw [resumeAll] at h
    obtain rfl := (Option.some.injEq _ _).mp h
    exact (List.append_nil _).symm
  | cons fb rest ih =>
    intro st st' h
    rw [resumeAll] at h
    cases hres : resumeGraph o fb st with
    | none => rw [hres] at h; exact absurd h (by simp)
    | some r =>
      rw [hres] at h
      cases r with
      | paused st2 =>
        have h1 := ih st2 st' h
        have h2 := resumeGraph_feedback o fb st _ hres
        rw [h1, Resumed.state] at *
        rw [h2]
        simp
      | ended st2 =>
        by_cases hr : rest.isEmpty
        · rw [hr] at h
          simp only [if_true] at h
          obtain rfl := (Option.some.injEq _ _).mp h
          have h2 := resumeGraph_feedback o fb st _ hres
          rw [Resumed.state] at h2
          rw [h2, List.isEmpty_iff.mp hr]
        · rw [Bool.of_not_eq_true hr] at h
          exact absurd h (by simp)

/-- C3: `user_feedback` is strictly append-only — no node of the graph
ever writes (hence removes or replaces) a `user_feedback` entry, and a
run with N resume cycles, one injected feedback string each, ends with
`user_feedback` equal to exactly those N strings in injection order. -/
theorem C3_user_feedback_append_only :
    (∀ n ∈ linearNodes, ∀ (o : Oracle) (s : MovieState) (u : StateUpdate),
      n.run o s = some u → u.user_feedback = none) ∧
    (∀ (o : Oracle) (c : String) (fbs : List String) (st' : MovieState),
      runWithFeedback o c fbs = some st' → st'.user_feedback = fbs) := by
  refine ⟨linearNodes_no_feedback_write, ?_⟩
  intro o c fbs st' h
  rw [runWithFeedback] at h
  cases hinv : invokeGraph o (initState c) with
  | none => rw [hinv] at h; exact absurd h (by simp)
  | some pr =>
    obtain ⟨st0, tr0⟩ := pr
    rw [hinv] at h
    have h0 : st0.user_feedback = (initState c).user_feedback :=
      runNodes_feedback_eq o linearNodes
        (fun m hm s u => linearNodes_no_feedback_write m hm o s u)
        _ st0 tr0 hinv
    have h1 := resumeAll_feedback o fbs st0 st' h
    rw [h1, h0]
    rfl

/-- Witness for C3: a two-resume run ends with exactly the two injected
feedback strings, in order. -/
theorem C3_user_feedback_append_only_witness :
    ((runWithFeedback trivOracle "demo"
        ["add plot twist", "looks good"]).getD (initState "z")).user_feedback =
      ["add plot twist", "looks good"] :=
  C3_user_feedback_append_only.2 trivOracle "demo"
    ["add plot twist", "looks good"] _ rfl

/-- C4 fails on the code: only `user_feedback` carries the `operator.add`
reducer, so `director_notes` is a last-value channel.  Concretely: after
a first pass the state holds one director note; resuming with feedback
routed to `create_characters` re-runs `director_review`, and afterwards
`director_notes` still holds exactly one entry — the prior entry was
discarded, not appended to (appending would give two). -/
theorem C4_counterexample_overwrite :
    demoPaused.director_notes.length = 1 ∧
    ((runNodes trivOracle (linearNodes.drop 1)
        (applyUpdate demoPaused
          { user_feedback := some ["more character depth"] })).map
      Prod.snd) =
      some ["create_characters", "develop_theme", "write_screenplay",
            "director_review", "critic_review", "market_analysis"] ∧
    ((resumeGraph trivOracle "more character depth" demoPaused).map
      (fun x => x.state.director_notes.length)) = some 1 :=
  ⟨rfl, rfl, rfl⟩

/-- C4 amended: `director_review` and `critic_review` each return a fresh
one-element list, and the merge replaces the previous `director_notes` /
`critic_feedback` contents wholesale (these fields have no `operator.add`
reducer); they are not append-only — only `user_feedback` is. -/
theorem C4_amended_reviews_overwrite (o : Oracle) (st : MovieState)
    (p : Plot) (t : Theme) (sp : Screenplay)
    (hp : st.plot = some p) (ht : st.theme = some t)
    (hsp : st.screenplay = some sp) :
    (∀ u, director_review o st = some u →
      (applyUpdate st u).director_notes = [o.genDirectorNote sp]) ∧
    (∀ u, critic_review o st = some u →
      (applyUpdate st u).critic_feedback = [o.genCriticNote p t sp]) := by
  constructor
  · intro u h
    simp only [director_review, hsp, Option.some.injEq] at h
    obtain rfl := h
    rfl
  · intro u h
    simp only [critic_review, hp, ht, hsp, Option.some.injEq] at h
    obtain rfl := h
    rfl

/-- Witness for the amended C4: on the concrete paused state (which
already holds one director note), re-running `director_review` leaves
exactly the one fresh note. -/
theorem C4_amended_reviews_overwrite_witness :
    (applyUpdate demoPaused
        { director_notes := some ["note on act on premise of demo"] }).director_notes =
      ["note on act on premise of demo"] :=
  (C4_amended_reviews_overwrite trivOracle demoPaused
    (trivOracle.genPlot "demo")
    (trivOracle.genTheme (trivOracle.genPlot "demo").synopsis
      (trivOracle.genCharacters (trivOracle.genPlot "demo").synopsis))
    (trivOracle.genScreenplay (trivOracle.genPlot "demo")
      (trivOracle.genCharacters (trivOracle.genPlot "demo").synopsis)
      (trivOracle.genTheme (trivOracle.genPlot "demo").synopsis
        (trivOracle.genCharacters (trivOracle.genPlot "demo").synopsis)))
    rfl rfl rfl).1
    { director_notes := some ["note on act on premise of demo"] } rfl

/-- Helper: running the chain from `create_characters` (index 1) on a
state whose `plot` is populated recomputes every downstream field from
the current inputs and leaves `plot` and `user_feedback` untouched. -/
theorem runNodes_from_characters (o : Oracle) (st : MovieState) (p : Plot)
    (hp : st.plot = some p) :
    runNodes o (linearNodes.drop 1) st =
      some ({ messages := st.messages
              concept := st.concept
              plot := some p
              characters := o.genCharacters p.synopsis
              theme := some (o.genTheme p.synopsis (o.genCharacters p.synopsis))
              screenplay := some (o.genScreenplay p (o.genCharacters p.synopsis)
                (o.genTheme p.synopsis (o.genCharacters p.synopsis)))
              market_analysis := some (o.genMarket p.synopsis
                (o.genTheme p.synopsis (o.genCharacters p.synopsis)).main_theme
                [o.genCriticNote p
                  (o.genTheme p.synopsis (o.genCharacters p.synopsis))
                  (o.genScreenplay p (o.genCharacters p.synopsis)
                    (o.genTheme p.synopsis (o.genCharacters p.synopsis)))])
              director_notes := [o.genDirectorNote
                (o.genScreenplay p (o.genCharacters p.synopsis)
                  (o.genTheme p.synopsis (o.genCharacters p.synopsis)))]
              critic_feedback := [o.genCriticNote p
                (o.genTheme p.synopsis (o.genCharacters p.synopsis))
                (o.genScreenplay p (o.genCharacters p.synopsis)
                  (o.genTheme p.synopsis (o.genCharacters p.synopsis)))]
              user_feedback := st.user_feedback },
            ["create_characters", "develop_theme", "write_screenplay",
             "director_review", "critic_review", "market_analysis"]) := by
  obtain ⟨msgs, c, pl, chs, th0, sc0, ma0, dn0, cf0, uf0⟩ := st
  change pl = some p at hp
  subst hp
  simp [runNodes, linearNodes, applyUpdate, create_characters, develop_theme,
    write_screenplay, director_review, critic_review, market_analysis]

/-- C5: resuming the interrupted graph with feedback containing
"character" but not "plot" restarts at `create_characters`; `plot` is
unchanged, while `characters`, `theme`, `screenplay`, `director_notes`,
`critic_feedback` and `market_analysis` are all recomputed by the
resumed pass from the current inputs, and the run pauses again at the
interrupt. -/
theorem C5_resume_restarts_at_characters (o : Oracle) (st : MovieState)
    (fb : String) (p : Plot) (hp : st.plot = some p)
    (hchar : containsSub "character".data (pyLower fb.data) = true)
    (hplot : containsSub "plot".data (pyLower fb.data) = false) :
    ∃ st', resumeGraph o fb st = some (Resumed.paused st') ∧
      st'.plot = st.plot ∧
      st'.characters = o.genCharacters p.synopsis ∧
      st'.theme = some (o.genTheme p.synopsis st'.characters) ∧
      (∃ sp, st'.screenplay = some sp ∧
        sp = o.genScreenplay p st'.characters
          (o.genTheme p.synopsis st'.characters) ∧
        st'.director_notes = [o.genDirectorNote sp] ∧
        st'.critic_feedback =
          [o.genCriticNote p (o.genTheme p.synopsis st'.characters) sp] ∧
        st'.market_analysis = some (o.genMarket p.synopsis
          (o.genTheme p.synopsis st'.characters).main_theme
          st'.critic_feedback)) ∧
      st'.user_feedback = st.user_feedback ++ [fb] := by
  have hlast : (applyUpdate st
      { user_feedback := some [fb] }).user_feedback.getLast? = some fb := by
    show (st.user_feedback ++ [fb]).getLast? = some fb
    exact List.getLast?_concat _
  have hroute : route_feedback
      (applyUpdate st { user_feedback := some [fb] }) =
        Route.createCharacters := by
    rw [route_feedback, hlast]
    simp only [hplot, hchar]
    simp
  have hp1 : (applyUpdate st { user_feedback := some [fb] }).plot = some p := hp
  have hrun := runNodes_from_characters o
    (applyUpdate st { user_feedback := some [fb] }) p hp1
  have hres : resumeGraph o fb st = some (Resumed.paused
      ({ messages := (applyUpdate st { user_feedback := some [fb] }).messages
         concept := (applyUpdate st { user_feedback := some [fb] }).concept
         plot := some p
         characters := o.genCharacters p.synopsis
         theme := some (o.genTheme p.synopsis (o.genCharacters p.synopsis))
         screenplay := some (o.genScreenplay p (o.genCharacters p.synopsis)
           (o.genTheme p.synopsis (o.genCharacters p.synopsis)))
         market_analysis := some (o.genMarket p.synopsis
           (o.genTheme p.synopsis (o.genCharacters p.synopsis)).main_theme
           [o.genCriticNote p
             (o.genTheme p.synopsis (o.genCharacters p.synopsis))
             (o.genScreenplay p (o.genCharacters p.synopsis)
               (o.genTheme p.synopsis (o.genCharacters p.synopsis)))])
         director_notes := [o.genDirectorNote
           (o.genScreenplay p (o.genCharacters p.synopsis)
             (o.genTheme p.synopsis (o.genCharacters p.synopsis)))]
         critic_feedback := [o.genCriticNote p
           (o.genTheme p.synopsis (o.genCharacters p.synopsis))
           (o.genScreenplay p (o.genCharacters p.synopsis)
             (o.genTheme p.synopsis (o.genCharacters p.synopsis)))]
         user_feedback :=
           (applyUpdate st { user_feedback := some [fb] }).user_feedback })) := by
    rw [resumeGraph, hroute]
    simp only [Route.entry]
    rw [hrun]
  refine ⟨_, hres, ?_, rfl, rfl, ⟨_, rfl, rfl, rfl, rfl, rfl⟩, rfl⟩
  rw [hp]

/-- Witness for C5: resuming the concrete paused state with
"more character depth" pauses again with `plot` unchanged. -/
theorem C5_resume_restarts_at_characters_witness :
    ∃ st', resumeGraph trivOracle "more character depth" demoPaused =
        some (Resumed.paused st') ∧ st'.plot = demoPaused.plot := by
  obtain ⟨st', h1, h2, -⟩ :=
    C5_resume_restarts_at_characters trivOracle demoPaused
      "more character depth" (trivOracle.genPlot "demo") rfl
      (by decide) (by decide)
  exact ⟨st', h1, h2⟩

/-- C6: when both images load and encoding extraction succeeds,
`SelfieAuth` returns `False` — it does not raise — if either image
yields zero face encodings, and otherwise returns exactly the underlying
comparator's result on the two extracted encodings. -/
theorem C6_selfie_auth_zero_faces (Img Enc E C : Type)
    (lib : FaceLib Img Enc E C) (a n : String) (i1 i2 : Img)
    (l1 l2 : List Enc)
    (h1 : lib.load_image_file a = Except.ok i1)
    (h2 : lib.load_image_file n = Except.ok i2)
    (e1 : lib.face_encodings i1 = Except.ok l1) :
    (l1 = [] →
      SelfieAuth lib a n = Except.ok (SelfieResult.boolResult false)) ∧
    (lib.face_encodings i2 = Except.ok l2 →
      (l2 = [] →
        SelfieAuth lib a n = Except.ok (SelfieResult.boolResult false)) ∧
      (∀ x xs y ys r, l1 = x :: xs → l2 = y :: ys →
        lib.compare_faces [x] y = Except.ok r →
        SelfieAuth lib a n = Except.ok (SelfieResult.cmpResult r))) := by
  constructor
  · intro hl
    subst hl
    simp [SelfieAuth, tryEncodings, h1, h2, e1]
  · intro e2
    constructor
    · intro hl2
      subst hl2
      cases l1 with
      | nil => simp [SelfieAuth, tryEncodings, h1, h2, e1]
      | cons x xs => simp [SelfieAuth, tryEncodings, h1, h2, e1, e2]
    · intro x xs y ys r hx hy hc
      subst hx
      subst hy
      simp [SelfieAuth, tryEncodings, h1, h2, e1, e2, hc]

/-- Witness for C6: with both images containing one face each,
`SelfieAuth` returns the comparator's verdict. -/
theorem C6_selfie_auth_zero_faces_witness :
    SelfieAuth libTwoFaces "ab" "x" =
      Except.ok (SelfieResult.cmpResult true) :=
  ((C6_selfie_auth_zero_faces Nat Nat String Bool libTwoFaces "ab" "x"
    2 1 [2] [1] rfl rfl rfl).2 rfl).2 2 [] 1 [] true rfl rfl rfl

/-- C10: the `try/except` around encoding extraction is not specific to
the missing-face condition — any exception raised by either
`face_encodings` call (or the `[0]` indexing) becomes `return False` —
while exceptions from `load_image_file` or from `compare_faces`
propagate to the caller. -/
theorem C10_catch_scope (Img Enc E C : Type) (lib : FaceLib Img Enc E C)
    (a n : String) :
    (∀ e, lib.load_image_file a = Except.error e →
      SelfieAuth lib a n = Except.error (PyErr.libError e)) ∧
    (∀ i1 e, lib.load_image_file a = Except.ok i1 →
      lib.load_image_file n = Except.error e →
      SelfieAuth lib a n = Except.error (PyErr.libError e)) ∧
    (∀ i1 i2 e, lib.load_image_file a = Except.ok i1 →
      lib.load_image_file n = Except.ok i2 →
      lib.face_encodings i1 = Except.error e →
      SelfieAuth lib a n = Except.ok (SelfieResult.boolResult false)) ∧
    (∀ i1 i2 l1 e, lib.load_image_file a = Except.ok i1 →
      lib.load_image_file n = Except.ok i2 →
      lib.face_encodings i1 = Except.ok l1 →
      lib.face_encodings i2 = Except.error e →
      SelfieAuth lib a n = Except.ok (SelfieResult.boolResult false)) ∧
    (∀ i1 i2 x xs y ys e, lib.load_image_file a = Except.ok i1 →
      lib.load_image_file n = Except.ok i2 →
      lib.face_encodings i1 = Except.ok (x :: xs) →
      lib.face_encodings i2 = Except.ok (y :: ys) →
      lib.compare_faces [x] y = Except.error e →
      SelfieAuth lib a n = Except.error (PyErr.libError e)) := by
  refine ⟨?_, ?_, ?_, ?_, ?_⟩
  · intro e h
    simp [SelfieAuth, h]
  · intro i1 e h1 h2
    simp [SelfieAuth, h1, h2]
  · intro i1 i2 e h1 h2 henc
    simp [SelfieAuth, tryEncodings, h1, h2, henc]
  · intro i1 i2 l1 e h1 h2 henc1 henc2
    cases l1 with
    | nil => simp [SelfieAuth, tryEncodings, h1, h2, henc1]
    | cons x xs => simp [SelfieAuth, tryEncodings, h1, h2, henc1, henc2]
  · intro i1 i2 x xs y ys e h1 h2 henc1 henc2 hc
    simp [SelfieAuth, tryEncodings, h1, h2, henc1, henc2, hc]

/-- Witness for C10: a library whose encoding extraction raises a
non-`IndexError` exception still makes `SelfieAuth` return `False`. -/
theorem C10_catch_scope_witness :
    SelfieAuth libEncRaises "ab" "x" =
      Except.ok (SelfieResult.boolResult false) :=
  (C10_catch_scope Nat Nat String Bool libEncRaises "ab" "x").2.2.1
    2 1 "boom" rfl rfl rfl

/-- Helper: the basename produced by `splitPath` never contains a
slash. -/
theorem splitPath_tail_no_slash (p : List Char) :
    ∀ ch ∈ (splitPath p).2, (ch == '/') = false := by
  intro ch hc
  simp only [splitPath, List.mem_reverse] at hc
  have h2 := List.mem_takeWhile_imp hc
  simpa using h2

/-- Helper: the directory part produced by `splitPath` is either all
slashes (possibly empty) or does not end in a slash. -/
theorem splitPath_head_shape (p : List Char) :
    (splitPath p).1.all (fun c => c == '/') = true ∨
      (splitPath p).1.getLast? ≠ some '/' := by
  by_cases hall :
      ((p.reverse.dropWhile (fun c => !(c == '/'))).all
        (fun c => c == '/')) = true
  · left
    simp only [splitPath]
    rw [if_pos hall, List.all_reverse]
    exact hall
  · right
    simp only [splitPath]
    rw [if_neg hall, List.getLast?_reverse]
    have hh := List.head?_dropWhile_not (fun c => c == '/')
      (p.reverse.dropWhile (fun c => !(c == '/')))
    cases hx : (List.dropWhile (fun c => c == '/')
        (p.reverse.dropWhile (fun c => !(c == '/')))).head? with
    | none => simp
    | some x =>
      rw [hx] at hh
      simp only [] at hh
      simp only [ne_eq, Option.some.injEq]
      intro hcontra
      rw [hcontra] at hh
      simp at hh

/-- Helper: splitting the join of a `splitPath`-shaped directory with a
nonempty, slash-free filename recovers the directory and the filename. -/
theorem splitPath_joinPath (d t : List Char) (ht0 : t ≠ [])
    (ht : ∀ ch ∈ t, (ch == '/') = false)
    (hd : d.all (fun c => c == '/') = true ∨ d.getLast? ≠ some '/') :
    splitPath (joinPath d t) = (d, t) := by
  obtain ⟨c, t', rfl⟩ : ∃ c t', t = c :: t' := by
    cases t with
    | nil => exact absurd rfl ht0
    | cons c t' => exact ⟨c, t', rfl⟩
  have hc : (c == '/') = false := ht c (List.mem_cons_self _ _)
  have hcn : ¬ c = '/' := by simpa using hc
  have hb : ¬ ((c :: t').head? = some '/') := by simp [hcn]
  have htq : ∀ ch ∈ (c :: t').reverse, (!(ch == '/')) = true := by
    intro ch hch
    rw [List.mem_reverse] at hch
    simp [ht ch hch]
  rw [joinPath, if_neg hb]
  by_cases hd2 : d = [] ∨ d.getLast? = some '/'
  · rw [if_pos hd2]
    rcases hd2 with rfl | hdl
    · simp only [List.nil_append, splitPath]
      rw [List.takeWhile_eq_self_iff.mpr htq,
        List.dropWhile_eq_nil_iff.mpr htq]
      simp
    · have hall : d.all (fun c => c == '/') = true := by
        rcases hd with h | h
        · exact h
        · exact absurd hdl h
      have hrev : d.reverse.head? = some '/' := by
        rw [List.head?_reverse]; exact hdl
      obtain ⟨rest, hrest⟩ : ∃ rest, d.reverse = '/' :: rest := by
        cases hy : d.reverse with
        | nil => rw [hy] at hrev; exact absurd hrev (by simp)
        | cons a as =>
          rw [hy] at hrev
          simp only [List.head?_cons, Option.some.injEq] at hrev
          exact ⟨as, by rw [hrev]⟩
      simp only [splitPath]
      rw [List.reverse_append,
        List.takeWhile_append_of_pos htq,
        List.dropWhile_append_of_pos htq, hrest,
        List.takeWhile_cons_of_neg (by simp),
        List.dropWhile_cons_of_neg (by simp)]
      have hall2 : (('/' :: rest).all (fun c => c == '/')) = true := by
        rw [← hrest, List.all_reverse]
        exact hall
      rw [if_pos hall2, ← hrest]
      simp
  · rw [if_neg hd2]
    push_neg at hd2
    obtain ⟨hdne, hdl⟩ := hd2
    obtain ⟨x, hx⟩ : ∃ x, d.getLast? = some x :=
      Option.isSome_iff_exists.mp (List.getLast?_isSome.mpr hdne)
    have hxne : ¬ (x = '/') := fun h => hdl (h ▸ hx)
    have hrevd : d.reverse.head? = some x := by
      rw [List.head?_reverse]; exact hx
    obtain ⟨rest, hrest⟩ : ∃ rest, d.reverse = x :: rest := by
      cases hy : d.reverse with
      | nil => rw [hy] at hrevd; exact absurd hrevd (by simp)
      | cons a as =>
        rw [hy] at hrevd
        simp only [List.head?_cons, Option.some.injEq] at hrevd
        exact ⟨as, by rw [hrevd]⟩
    simp only [splitPath]
    rw [show d ++ '/' :: c :: t' = d ++ ['/'] ++ (c :: t') by simp,
      List.reverse_append, List.reverse_append,
      List.takeWhile_append_of_pos htq,
      List.dropWhile_append_of_pos htq]
    simp only [List.reverse_cons, List.reverse_nil, List.nil_append,
      List.singleton_append]
    rw [List.takeWhile_cons_of_neg (by simp),
      List.dropWhile_cons_of_neg (by simp)]
    have hallf : (('/' :: d.reverse).all (fun c => c == '/')) = false := by
      rw [hrest]
      simp [hxne]
    rw [if_neg (by simp [hallf]),
      List.dropWhile_cons_of_pos (by simp), hrest,
      List.dropWhile_cons_of_neg (by simp [hxne]), ← hrest]
    simp

/-- C8: if the basename of the event's object already starts with
`thumbnail_`, `main` returns early and performs nothing; otherwise it
downloads and resizes the source object and uploads it to a name whose
directory equals the source's directory and whose basename is
`thumbnail_` prepended to the source basename. -/
theorem C8_thumbnail_guard_and_name (ev : StorageEvent) :
    (leadsWith newFileStart (splitPath ev.name.data).2 = true →
      fmain ev = MainAct.skip) ∧
    (leadsWith newFileStart (splitPath ev.name.data).2 = false →
      fmain ev = MainAct.process ev.bucket ev.name (uploadName ev.name) ∧
      splitPath (uploadName ev.name).data =
        ((splitPath ev.name.data).1,
          newFileStart ++ (splitPath ev.name.data).2)) := by
  constructor
  · intro h
    simp [fmain, h]
  · intro h
    refine ⟨by simp [fmain, h], ?_⟩
    show splitPath (joinPath (splitPath ev.name.data).1
      (newFileStart ++ (splitPath ev.name.data).2)) = _
    apply splitPath_joinPath
    · simp [newFileStart]
    · intro ch hch
      rw [List.mem_append] at hch
      rcases hch with h1 | h2
      · have haux : ∀ c0 ∈ newFileStart, (c0 == '/') = false := by decide
        exact haux ch h1
      · exact splitPath_tail_no_slash _ ch h2
    · exact splitPath_head_shape _

/-- Witness for C8: a nested object name is processed and uploaded into
its own directory under the `thumbnail_` prefixed basename. -/
theorem C8_thumbnail_guard_and_name_witness :
    fmain ⟨"b", "dir/pic.png"⟩ =
      MainAct.process "b" "dir/pic.png" (uploadName "dir/pic.png") ∧
    splitPath (uploadName "dir/pic.png").data =
      ((splitPath "dir/pic.png".data).1,
        newFileStart ++ (splitPath "dir/pic.png".data).2) :=
  (C8_thumbnail_guard_and_name ⟨"b", "dir/pic.png"⟩).2 (by decide)

end FaceRec
